import Mathlib

/-!
Shallow embedding of `eco_meteor_bot.py`, a single-guild countdown/reminder
bot: a periodic reconciliation loop renames a countdown channel and posts
day/hour threshold reminders, plus configuration commands.

Modelling conventions:
* Durations (`total_seconds`) are modelled as whole seconds (`Int`).  Python's
  floor division `//` and `%` by a positive constant coincide with Lean's
  Euclidean `/` and `%` on `Int`, which are used throughout.
* External effects (channel rename, message send, channel create/delete) are
  emitted as `Action` intents; the outcome of a send/rename attempt is an
  input `Bool`.  In the source every such attempt is wrapped in
  `try/except` whose handler only prints, so outcomes feed the `log`
  component and — for a successful rename — the tracked channel name.
* Python sets are modelled as `Finset Int`.
-/

namespace EcoMeteorBot

/-- Source line 15: display label of the event. -/
def EVENT_NAME : String := "meteor impact"

/-- Source line 18: days before impact when the bot pings everyone. -/
def REMINDER_DAYS : Finset Int := {28, 21, 14, 7, 2, 1}

/-- Source line 21: hours before impact when the bot pings everyone. -/
def REMINDER_HOURS : Finset Int := {24, 12, 6, 3, 1}

/-- Source line 24: meteor icon. -/
def METEOR_ICON : String := "☄️"

/-- Source line 27: channel name once the timer hits zero. -/
def FINISHED_NAME : String := METEOR_ICON ++ " · Impact imminent!"

/-- Python's `" ".join(parts)`: concatenate with a single space between
consecutive elements. -/
def joinSpace : List String → String
  | [] => ""
  | [p] => p
  | p :: ps => p ++ " " ++ joinSpace ps

/-- Source lines 42-59, `format_time(delta)`: countdown string like
`"10d 4h 32m"`.  The input is the whole-second count of the delta
(`int(delta.total_seconds())`). -/
def format_time (delta : Int) : String :=
  let total := if delta < 0 then 0 else delta
  let days := total / 86400
  let rem := total % 86400
  let hours := rem / 3600
  let rem2 := rem % 3600
  let minutes := rem2 / 60
  let parts : List String :=
    ((if 0 < days then [toString days ++ "d"] else []) ++
      (if 0 < hours ∨ 0 < days then [toString hours ++ "h"] else [])) ++
    [toString minutes ++ "m"]
  joinSpace parts

/-- Digit run of Python's built-in `int(str)` after the optional sign:
one or more ASCII digits, where a single underscore may separate two
digits.  `acc` is the value accumulated so far. -/
def pyIntGo (acc : Nat) : List Char → Option Nat
  | [] => some acc
  | ['_'] => none
  | '_' :: c :: cs =>
    if c.isDigit then pyIntGo (acc * 10 + (c.toNat - 48)) cs else none
  | c :: cs =>
    if c.isDigit then pyIntGo (acc * 10 + (c.toNat - 48)) cs else none

/-- Body of Python `int(str)`: at least one digit, underscores only between
digits. -/
def pyIntCore : List Char → Option Nat
  | [] => none
  | c :: cs => if c.isDigit then pyIntGo (c.toNat - 48) cs else none

/-- ASCII whitespace stripped by Python `int(str)` (unicode whitespace is not
modelled; no claim depends on it). -/
def isPySpace (c : Char) : Bool :=
  c == ' ' || c == '\t' || c == '\n' || c == '\r' || c == '\x0b' || c == '\x0c'

/-- Strip leading and trailing whitespace. -/
def pyStrip (cs : List Char) : List Char :=
  ((cs.dropWhile isPySpace).reverse.dropWhile isPySpace).reverse

/-- Python's built-in `int(str)` on a character list: optional surrounding
whitespace, optional single sign, then digits (`pyIntCore`).  Unicode digits
are not modelled.  Returns `none` where Python raises `ValueError`. -/
def pyIntL (cs : List Char) : Option Int :=
  match pyStrip cs with
  | '+' :: rest => (pyIntCore rest).map (fun n => (n : Int))
  | '-' :: rest => (pyIntCore rest).map (fun n => -(n : Int))
  | rest => (pyIntCore rest).map (fun n => (n : Int))

/-- Python's `str.split(sep)` for a one-character separator: splits at every
occurrence, keeping empty pieces (`"".split("-") == [""]`). -/
def splitOnChar (sep : Char) : List Char → List (List Char)
  | [] => [[]]
  | c :: cs =>
    if c = sep then [] :: splitOnChar sep cs
    else
      match splitOnChar sep cs with
      | [] => [[c]]
      | r :: rs => (c :: r) :: rs

/-- A `datetime.datetime` value as produced by
`datetime(year, month, day, hour, minute, tzinfo=timezone.utc)`:
the constructor defaults leave `second` and `microsecond` at `0`, and
`tzIsUTC` records the `tzinfo=timezone.utc` argument (timezone awareness). -/
structure DateTimeUTC where
  year : Int
  month : Int
  day : Int
  hour : Int
  minute : Int
  second : Int
  microsecond : Int
  tzIsUTC : Bool
deriving DecidableEq, Repr

/-- Gregorian leap-year rule used by `datetime`. -/
def isLeapYear (y : Int) : Bool :=
  (y % 4 == 0 && y % 100 != 0) || y % 400 == 0

/-- Number of days in a month, as validated by the `datetime` constructor. -/
def daysInMonth (y m : Int) : Int :=
  if m = 2 then (if isLeapYear y then 29 else 28)
  else if m = 4 ∨ m = 6 ∨ m = 9 ∨ m = 11 then 30
  else 31

/-- The `datetime(year, month, day, hour, minute, tzinfo=timezone.utc)`
constructor call of source line 74: validates ranges (`MINYEAR = 1`,
`MAXYEAR = 9999`, calendar-valid day, hour 0-23, minute 0-59) and raises
`ValueError` (here `none`) otherwise. -/
def mkDatetime (year month day hour minute : Int) : Option DateTimeUTC :=
  if 1 ≤ year ∧ year ≤ 9999 ∧ 1 ≤ month ∧ month ≤ 12 ∧
      1 ≤ day ∧ day ≤ daysInMonth year month ∧
      0 ≤ hour ∧ hour ≤ 23 ∧ 0 ≤ minute ∧ minute ≤ 59 then
    some ⟨year, month, day, hour, minute, 0, 0, true⟩
  else none

/-- Python unpacking `a, b, c = it` of a three-element iterator of parsed
ints: fails (raises, here `none`) unless the list has exactly three
elements, each a successfully parsed int. -/
def unpackThree (l : List (Option Int)) : Option (Int × Int × Int) :=
  match l with
  | [some a, some b, some c] => some (a, b, c)
  | _ => none

/-- Python unpacking `a, b = it` of a two-element iterator of parsed ints. -/
def unpackTwo (l : List (Option Int)) : Option (Int × Int) :=
  match l with
  | [some a, some b] => some (a, b)
  | _ => none

/-- Source lines 72-73: `year, month, day = map(int, date_str.split("-"))`
and `hour, minute = map(int, time_str.split(":"))`.  Any failure (wrong
field count or unparseable int) raises, here `none`. -/
def parseFields (date_str time_str : String) :
    Option (Int × Int × Int × Int × Int) :=
  match unpackThree ((splitOnChar '-' date_str.toList).map pyIntL) with
  | none => none
  | some (y, mo, da) =>
    match unpackTwo ((splitOnChar ':' time_str.toList).map pyIntL) with
    | none => none
    | some (h, mi) => some (y, mo, da, h, mi)

/-- Source lines 62-74, `parse_datetime_utc(date_str, time_str)`: parse
`YYYY-MM-DD` and `HH:MM` as a UTC datetime; `none` where the source raises
(malformed fields or `datetime` constructor rejection). -/
def parse_datetime_utc (date_str time_str : String) : Option DateTimeUTC :=
  match parseFields date_str time_str with
  | some (year, month, day, hour, minute) => mkDatetime year month day hour minute
  | none => none

/-- Python's `int(round(s / 3600))` for a whole-second count `s`: the
quotient rounded to the nearest integer, ties going to the even integer
(Python's banker's rounding; `s / 3600` is exact in binary floating point
precisely at the ties `s % 3600 == 1800`, so this is the exact float
behaviour). -/
def pyRound3600 (s : Int) : Int :=
  let q := s / 3600
  let r := s % 3600
  if 1800 < r then q + 1
  else if r < 1800 then q
  else if q % 2 = 0 then q else q + 1

/-- Side-effect intents the bot issues against the chat platform. -/
inductive Action where
  | rename (channelId : Nat) (newName : String)
  | sendDay (n : Int)
  | sendHour (n : Int)
  | deleteChannel (channelId : Nat)
  | createChannel (name : String)
deriving DecidableEq, Repr

/-- The module-level mutable state of the bot (source lines 9, 12, 36, 37). -/
structure BotState where
  countdownChannelId : Option Nat
  targetTime : Option DateTimeUTC
  sentDay : Finset Int
  sentHour : Finset Int
deriving DecidableEq

/-- Result of one invocation of the update loop: the new module state, the
channel's name after the tick (`none` when the channel lookup failed), the
emitted action intents, and the printed log lines. -/
structure LoopResult where
  state : BotState
  channelName : Option String
  actions : List Action
  log : List String

/-- One guarded rename block (source lines 111-116 and 129-134): issue a
rename only when the current name differs from the desired one; a failed
attempt is caught and only logged, leaving the channel name unchanged. -/
def renameStep (cid : Nat) (name new_name : String) (renameOk : Bool)
    (okMsg failMsg : String) : String × List Action × List String :=
  if name ≠ new_name then
    (if renameOk then new_name else name,
     [Action.rename cid new_name],
     [if renameOk then okMsg else failMsg])
  else (name, [], [])

/-- Day-based reminder block (source lines 136-151).  `days_remaining` is
`int(total_seconds // 86400)`.  The marker is added to the fired-set before
the send is attempted; a send failure is caught and only logged.  (The
source also checks `announce_channel is not None`, which always holds at
this point since the channel lookup succeeded.) -/
def dayReminderStep (sentDay : Finset Int) (total_seconds : Int)
    (sendOk : Bool) : Finset Int × List Action × List String :=
  let days_remaining := total_seconds / 86400
  if days_remaining ∈ REMINDER_DAYS ∧ days_remaining ∉ sentDay then
    (insert days_remaining sentDay,
     [Action.sendDay days_remaining],
     [if sendOk then "Sent day reminder for " ++ toString days_remaining ++ "d remaining."
      else "Failed to send day reminder"])
  else (sentDay, [], [])

/-- Hour-based reminder block (source lines 153-169): only evaluated when
strictly under 2 days remain; `hours_remaining` is
`int(round(total_seconds / 3600))`; marker added before the send attempt. -/
def hourReminderStep (sentHour : Finset Int) (total_seconds : Int)
    (sendOk : Bool) : Finset Int × List Action × List String :=
  if total_seconds < 2 * 86400 then
    let hours_remaining := pyRound3600 total_seconds
    if hours_remaining ∈ REMINDER_HOURS ∧ hours_remaining ∉ sentHour then
      (insert hours_remaining sentHour,
       [Action.sendHour hours_remaining],
       [if sendOk then "Sent hour reminder for " ++ toString hours_remaining ++ "h remaining."
        else "Failed to send hour reminder"])
    else (sentHour, [], [])
  else (sentHour, [], [])

/-- Source lines 86-169, `update_loop()`: one minute tick.  `total_seconds`
is `(TARGET_TIME - now).total_seconds()` supplied by the ambient clock;
`channelName` is the countdown channel's current name, `none` when both
`get_channel` and `fetch_channel` fail; `renameOk`, `sendDayOk`,
`sendHourOk` are the outcomes of the external attempts (every attempt is
inside `try/except`, so an outcome only selects the log line — and, for the
rename, whether the channel name actually changed). -/
def update_loop (s : BotState) (total_seconds : Int)
    (channelName : Option String) (renameOk sendDayOk sendHourOk : Bool) :
    LoopResult :=
  match s.targetTime, s.countdownChannelId with
  | none, _ => ⟨s, channelName, [], []⟩
  | some _, none => ⟨s, channelName, [], []⟩
  | some _, some cid =>
    match channelName with
    | none => ⟨s, none, [], ["Could not fetch countdown channel"]⟩
    | some name =>
      if total_seconds ≤ 0 then
        let r := renameStep cid name FINISHED_NAME renameOk
          "Set finished channel name." "Could not rename channel"
        ⟨s, some r.1, r.2.1, r.2.2⟩
      else
        let new_name := METEOR_ICON ++ " · " ++ format_time total_seconds ++ " till impact"
        let r := renameStep cid name new_name renameOk
          ("Updated channel name to: " ++ new_name) "Rename failed"
        let d := dayReminderStep s.sentDay total_seconds sendDayOk
        let h := hourReminderStep s.sentHour total_seconds sendHourOk
        ⟨⟨s.countdownChannelId, s.targetTime, d.1, h.1⟩, some r.1,
         (r.2.1 ++ d.2.1) ++ h.2.1, (r.2.2 ++ d.2.2) ++ h.2.2⟩

/-- Reply of the `!createmeteor` command handler. -/
inductive CreateResult where
  | invalidInput
  | created (channelId : Nat) (target : DateTimeUTC)
deriving DecidableEq, Repr

/-- Source lines 179-232, `create_meteor(ctx, date, time, name)`: parse the
date/time (on failure reply with the usage hint and change nothing), else
best-effort delete the old channel (only attempted when it still resolves,
`oldChannelResolves`), create a fresh channel (id `newChannelId`), set the
impact time and reset both fired-sets. -/
def create_meteor (s : BotState) (date time chname : String)
    (oldChannelResolves : Bool) (newChannelId : Nat) :
    BotState × List Action × CreateResult :=
  match parse_datetime_utc date time with
  | none => (s, [], CreateResult.invalidInput)
  | some dt =>
    let deleteActs : List Action :=
      match s.countdownChannelId with
      | some cid => if oldChannelResolves then [Action.deleteChannel cid] else []
      | none => []
    (⟨some newChannelId, some dt, ∅, ∅⟩,
     deleteActs ++ [Action.createChannel chname],
     CreateResult.created newChannelId dt)

/-- Reply of the `!deletemeteor` command handler. -/
inductive DeleteResult where
  | noActiveEvent
  | deleted (removedName : Option String)
deriving DecidableEq, Repr

/-- Source lines 235-269, `delete_meteor(ctx)`: report when nothing is
configured, else best-effort delete the channel (when `lookup` still
resolves it) and clear all state. -/
def delete_meteor (s : BotState) (lookup : Nat → Option String) :
    BotState × List Action × DeleteResult :=
  if s.countdownChannelId = none ∧ s.targetTime = none then
    (s, [], DeleteResult.noActiveEvent)
  else
    let info : List Action × Option String :=
      match s.countdownChannelId with
      | some cid =>
        match lookup cid with
        | some nm => ([Action.deleteChannel cid], some nm)
        | none => ([], none)
      | none => ([], none)
    (⟨none, none, ∅, ∅⟩, info.1, DeleteResult.deleted info.2)

/-- Desired channel display name for a tick, as the spec states it: the
fixed imminent label when remaining ≤ 0, otherwise the icon-prefixed
formatted countdown. -/
def desired_name (t : Int) : String :=
  if t ≤ 0 then FINISHED_NAME
  else METEOR_ICON ++ " · " ++ format_time t ++ " till impact"

/-- Whether an action intent is a channel rename. -/
def isRenameAct : Action → Bool
  | Action.rename _ _ => true
  | _ => false

/-- Number of rename intents in an action list. -/
def countRenames (l : List Action) : Nat := (l.filter isRenameAct).length

/-- Spec-side structural test (C10's wording): the date string splits on
`'-'` into exactly three fields, each parseable by Python `int`. -/
def dateThreeIntFields (d : String) : Bool :=
  let fields := splitOnChar '-' d.toList
  fields.length == 3 && fields.all (fun f => (pyIntL f).isSome)

/-- Spec-side structural test (C10's wording): the time string splits on
`':'` into exactly two fields, each parseable by Python `int`. -/
def timeTwoIntFields (t : String) : Bool :=
  let fields := splitOnChar ':' t.toList
  fields.length == 2 && fields.all (fun f => (pyIntL f).isSome)

/-- A sample configured impact time, `2026-01-20 16:47` UTC. -/
def sampleDT : DateTimeUTC := ⟨2026, 1, 20, 16, 47, 0, 0, true⟩

/-- A sample configured state with both fired-sets nonempty. -/
def sampleFired : BotState := ⟨some 1, some sampleDT, {7}, {24}⟩

/-- A sample channel lookup that resolves every id. -/
def sampleLookup : Nat → Option String := fun _ => some "meteor-impact"

/-! ## Helper lemmas -/

theorem daysSet_pos {n : Int} (hn : n ∈ REMINDER_DAYS) : 1 ≤ n := by
  have h : n = 28 ∨ n = 21 ∨ n = 14 ∨ n = 7 ∨ n = 2 ∨ n = 1 := by
    simpa [REMINDER_DAYS] using hn
  rcases h with h | h | h | h | h | h <;> omega

theorem hoursSet_pos {n : Int} (hn : n ∈ REMINDER_HOURS) : 1 ≤ n := by
  have h : n = 24 ∨ n = 12 ∨ n = 6 ∨ n = 3 ∨ n = 1 := by
    simpa [REMINDER_HOURS] using hn
  rcases h with h | h | h | h | h <;> omega

theorem renameStep_self (cid : Nat) (nm : String) (ok : Bool) (m1 m2 : String) :
    renameStep cid nm nm ok m1 m2 = (nm, [], []) := by
  simp [renameStep]

theorem renameStep_fst_true (cid : Nat) (name nn : String) (m1 m2 : String) :
    (renameStep cid name nn true m1 m2).1 = nn := by
  by_cases h : name = nn
  · simp [renameStep, h]
  · simp [renameStep, h]

theorem renameStep_acts (cid : Nat) (name nn : String) (ok : Bool) (m1 m2 : String) :
    (renameStep cid name nn ok m1 m2).2.1 =
      if name ≠ nn then [Action.rename cid nn] else [] := by
  simp only [renameStep]
  split <;> rfl

theorem renameStep_mem_acts (cid : Nat) (name nn : String) (ok : Bool)
    (m1 m2 : String) (c : Nat) (m : String)
    (h : Action.rename c m ∈ (renameStep cid name nn ok m1 m2).2.1) :
    c = cid ∧ m = nn ∧ name ≠ nn := by
  rw [renameStep_acts] at h
  by_cases hne : name = nn
  · simp [hne] at h
  · simp [hne] at h
    exact ⟨h.1, h.2, hne⟩

theorem renameStep_no_sendDay (cid : Nat) (name nn : String) (ok : Bool)
    (m1 m2 : String) (n : Int) :
    Action.sendDay n ∉ (renameStep cid name nn ok m1 m2).2.1 := by
  rw [renameStep_acts]
  split <;> simp

theorem renameStep_no_sendHour (cid : Nat) (name nn : String) (ok : Bool)
    (m1 m2 : String) (n : Int) :
    Action.sendHour n ∉ (renameStep cid name nn ok m1 m2).2.1 := by
  rw [renameStep_acts]
  split <;> simp

theorem renameStep_count (cid : Nat) (name nn : String) (ok : Bool)
    (m1 m2 : String) :
    countRenames (renameStep cid name nn ok m1 m2).2.1 ≤ 1 := by
  rw [renameStep_acts]
  split <;> simp [countRenames, isRenameAct]

theorem dayStep_indep (sd : Finset Int) (t : Int) (o1 o2 : Bool) :
    (dayReminderStep sd t o1).1 = (dayReminderStep sd t o2).1 ∧
    (dayReminderStep sd t o1).2.1 = (dayReminderStep sd t o2).2.1 := by
  simp only [dayReminderStep]
  split <;> simp

theorem dayStep_mem (sd : Finset Int) (t : Int) (o : Bool) (n : Int) :
    Action.sendDay n ∈ (dayReminderStep sd t o).2.1 ↔
      t / 86400 = n ∧ n ∈ REMINDER_DAYS ∧ n ∉ sd := by
  simp only [dayReminderStep]
  by_cases h : t / 86400 ∈ REMINDER_DAYS ∧ t / 86400 ∉ sd
  · rw [if_pos h]
    simp only [List.mem_singleton, Action.sendDay.injEq]
    constructor
    · rintro rfl
      exact ⟨rfl, h.1, h.2⟩
    · rintro ⟨rfl, -, -⟩
      rfl
  · rw [if_neg h]
    simp only [List.not_mem_nil, false_iff]
    rintro ⟨rfl, h2, h3⟩
    exact h ⟨h2, h3⟩

theorem dayStep_fst (sd : Finset Int) (t : Int) (o : Bool) :
    (dayReminderStep sd t o).1 =
      if t / 86400 ∈ REMINDER_DAYS ∧ t / 86400 ∉ sd then insert (t / 86400) sd
      else sd := by
  simp only [dayReminderStep]
  split <;> rfl

theorem dayStep_marker (sd : Finset Int) (t : Int) (o : Bool) (n : Int)
    (h : Action.sendDay n ∈ (dayReminderStep sd t o).2.1) :
    n ∈ (dayReminderStep sd t o).1 := by
  rcases (dayStep_mem sd t o n).1 h with ⟨h1, h2, h3⟩
  subst h1
  rw [dayStep_fst, if_pos ⟨h2, h3⟩]
  exact Finset.mem_insert_self _ _

theorem dayStep_superset (sd : Finset Int) (t : Int) (o : Bool) :
    sd ⊆ (dayReminderStep sd t o).1 := by
  rw [dayStep_fst]
  split
  · exact Finset.subset_insert _ _
  · exact Finset.Subset.refl sd

theorem dayStep_blocked (sd : Finset Int) (t : Int) (o : Bool) (n : Int)
    (hn : n ∈ sd) : Action.sendDay n ∉ (dayReminderStep sd t o).2.1 := by
  rw [dayStep_mem]
  rintro ⟨rfl, -, h3⟩
  exact h3 hn

theorem dayStep_idem (sd : Finset Int) (t : Int) (o o' : Bool) :
    dayReminderStep (dayReminderStep sd t o).1 t o' =
      ((dayReminderStep sd t o).1, [], []) := by
  by_cases h : t / 86400 ∈ REMINDER_DAYS ∧ t / 86400 ∉ sd
  · have h1 : (dayReminderStep sd t o).1 = insert (t / 86400) sd := by
      rw [dayStep_fst, if_pos h]
    rw [h1]
    simp only [dayReminderStep]
    rw [if_neg (by simp)]
  · have h1 : (dayReminderStep sd t o).1 = sd := by
      rw [dayStep_fst, if_neg h]
    rw [h1]
    simp only [dayReminderStep]
    rw [if_neg h]

theorem dayStep_no_sendHour (sd : Finset Int) (t : Int) (o : Bool) (n : Int) :
    Action.sendHour n ∉ (dayReminderStep sd t o).2.1 := by
  simp only [dayReminderStep]
  split <;> simp

theorem dayStep_no_rename (sd : Finset Int) (t : Int) (o : Bool) (c : Nat)
    (m : String) : Action.rename c m ∉ (dayReminderStep sd t o).2.1 := by
  simp only [dayReminderStep]
  split <;> simp

theorem dayStep_count (sd : Finset Int) (t : Int) (o : Bool) :
    countRenames (dayReminderStep sd t o).2.1 = 0 := by
  simp only [dayReminderStep]
  split <;> simp [countRenames, isRenameAct]

theorem hourStep_guard (sh : Finset Int) (t : Int) (o : Bool)
    (ht : 2 * 86400 ≤ t) : hourReminderStep sh t o = (sh, [], []) := by
  simp only [hourReminderStep]
  rw [if_neg (by omega)]

theorem hourStep_indep (sh : Finset Int) (t : Int) (o1 o2 : Bool) :
    (hourReminderStep sh t o1).1 = (hourReminderStep sh t o2).1 ∧
    (hourReminderStep sh t o1).2.1 = (hourReminderStep sh t o2).2.1 := by
  simp only [hourReminderStep]
  split
  · split <;> simp
  · simp

theorem hourStep_mem (sh : Finset Int) (t : Int) (o : Bool) (n : Int) :
    Action.sendHour n ∈ (hourReminderStep sh t o).2.1 ↔
      t < 2 * 86400 ∧ pyRound3600 t = n ∧ n ∈ REMINDER_HOURS ∧ n ∉ sh := by
  simp only [hourReminderStep]
  by_cases hg : t < 2 * 86400
  · rw [if_pos hg]
    by_cases h : pyRound3600 t ∈ REMINDER_HOURS ∧ pyRound3600 t ∉ sh
    · rw [if_pos h]
      simp only [List.mem_singleton, Action.sendHour.injEq]
      constructor
      · rintro rfl
        exact ⟨hg, rfl, h.1, h.2⟩
      · rintro ⟨-, rfl, -, -⟩
        rfl
    · rw [if_neg h]
      simp only [List.not_mem_nil, false_iff]
      rintro ⟨-, rfl, h2, h3⟩
      exact h ⟨h2, h3⟩
  · rw [if_neg hg]
    simp only [List.not_mem_nil, false_iff]
    rintro ⟨hg2, -⟩
    exact hg hg2

theorem hourStep_fst (sh : Finset Int) (t : Int) (o : Bool) :
    (hourReminderStep sh t o).1 =
      if t < 2 * 86400 ∧ pyRound3600 t ∈ REMINDER_HOURS ∧ pyRound3600 t ∉ sh then
        insert (pyRound3600 t) sh
      else sh := by
  simp only [hourReminderStep]
  by_cases hg : t < 2 * 86400
  · by_cases h : pyRound3600 t ∈ REMINDER_HOURS ∧ pyRound3600 t ∉ sh
    · rw [if_pos hg, if_pos h,
        if_pos (show t < 2 * 86400 ∧ pyRound3600 t ∈ REMINDER_HOURS ∧
          pyRound3600 t ∉ sh from ⟨hg, h⟩)]
    · rw [if_pos hg, if_neg h, if_neg (by tauto)]
  · rw [if_neg hg, if_neg (by tauto)]

theorem hourStep_marker (sh : Finset Int) (t : Int) (o : Bool) (n : Int)
    (h : Action.sendHour n ∈ (hourReminderStep sh t o).2.1) :
    n ∈ (hourReminderStep sh t o).1 := by
  rcases (hourStep_mem sh t o n).1 h with ⟨hg, h1, h2, h3⟩
  subst h1
  rw [hourStep_fst, if_pos ⟨hg, h2, h3⟩]
  exact Finset.mem_insert_self _ _

theorem hourStep_superset (sh : Finset Int) (t : Int) (o : Bool) :
    sh ⊆ (hourReminderStep sh t o).1 := by
  rw [hourStep_fst]
  split
  · exact Finset.subset_insert _ _
  · exact Finset.Subset.refl sh

theorem hourStep_blocked (sh : Finset Int) (t : Int) (o : Bool) (n : Int)
    (hn : n ∈ sh) : Action.sendHour n ∉ (hourReminderStep sh t o).2.1 := by
  rw [hourStep_mem]
  rintro ⟨-, rfl, -, h3⟩
  exact h3 hn

theorem hourStep_idem (sh : Finset Int) (t : Int) (o o' : Bool) :
    hourReminderStep (hourReminderStep sh t o).1 t o' =
      ((hourReminderStep sh t o).1, [], []) := by
  by_cases hc : t < 2 * 86400 ∧ pyRound3600 t ∈ REMINDER_HOURS ∧ pyRound3600 t ∉ sh
  · have h1 : (hourReminderStep sh t o).1 = insert (pyRound3600 t) sh := by
      rw [hourStep_fst, if_pos hc]
    rw [h1]
    simp only [hourReminderStep]
    by_cases hg : t < 2 * 86400
    · rw [if_pos hg, if_neg (by simp)]
    · rw [if_neg hg]
  · have h1 : (hourReminderStep sh t o).1 = sh := by
      rw [hourStep_fst, if_neg hc]
    rw [h1]
    simp only [hourReminderStep]
    by_cases hg : t < 2 * 86400
    · rw [if_pos hg, if_neg (by tauto)]
    · rw [if_neg hg]

theorem hourStep_no_sendDay (sh : Finset Int) (t : Int) (o : Bool) (n : Int) :
    Action.sendDay n ∉ (hourReminderStep sh t o).2.1 := by
  simp only [hourReminderStep]
  split
  · split <;> simp
  · simp

theorem hourStep_no_rename (sh : Finset Int) (t : Int) (o : Bool) (c : Nat)
    (m : String) : Action.rename c m ∉ (hourReminderStep sh t o).2.1 := by
  simp only [hourReminderStep]
  split
  · split <;> simp
  · simp

theorem hourStep_count (sh : Finset Int) (t : Int) (o : Bool) :
    countRenames (hourReminderStep sh t o).2.1 = 0 := by
  simp only [hourReminderStep]
  split
  · split <;> simp [countRenames, isRenameAct]
  · simp [countRenames]

theorem update_loop_no_target (cido : Option Nat) (sd sh : Finset Int)
    (t : Int) (cn : Option String) (rOk dOk hOk : Bool) :
    update_loop ⟨cido, none, sd, sh⟩ t cn rOk dOk hOk =
      ⟨⟨cido, none, sd, sh⟩, cn, [], []⟩ := rfl

theorem update_loop_no_channel_id (tt : DateTimeUTC) (sd sh : Finset Int)
    (t : Int) (cn : Option String) (rOk dOk hOk : Bool) :
    update_loop ⟨none, some tt, sd, sh⟩ t cn rOk dOk hOk =
      ⟨⟨none, some tt, sd, sh⟩, cn, [], []⟩ := rfl

theorem update_loop_lookup_failed (cid : Nat) (tt : DateTimeUTC)
    (sd sh : Finset Int) (t : Int) (rOk dOk hOk : Bool) :
    update_loop ⟨some cid, some tt, sd, sh⟩ t none rOk dOk hOk =
      ⟨⟨some cid, some tt, sd, sh⟩, none, [],
       ["Could not fetch countdown channel"]⟩ := rfl

theorem update_loop_expired_eq (cid : Nat) (tt : DateTimeUTC)
    (sd sh : Finset Int) (t : Int) (name : String) (rOk dOk hOk : Bool)
    (ht : t ≤ 0) :
    update_loop ⟨some cid, some tt, sd, sh⟩ t (some name) rOk dOk hOk =
      ⟨⟨some cid, some tt, sd, sh⟩,
       some (renameStep cid name FINISHED_NAME rOk
         "Set finished channel name." "Could not rename channel").1,
       (renameStep cid name FINISHED_NAME rOk
         "Set finished channel name." "Could not rename channel").2.1,
       (renameStep cid name FINISHED_NAME rOk
         "Set finished channel name." "Could not rename channel").2.2⟩ := by
  simp only [update_loop]
  rw [if_pos ht]

theorem update_loop_active_eq (cid : Nat) (tt : DateTimeUTC)
    (sd sh : Finset Int) (t : Int) (name : String) (rOk dOk hOk : Bool)
    (ht : 0 < t) :
    update_loop ⟨some cid, some tt, sd, sh⟩ t (some name) rOk dOk hOk =
      ⟨⟨some cid, some tt, (dayReminderStep sd t dOk).1,
          (hourReminderStep sh t hOk).1⟩,
       some (renameStep cid name
         (METEOR_ICON ++ " · " ++ format_time t ++ " till impact") rOk
         ("Updated channel name to: " ++
           (METEOR_ICON ++ " · " ++ format_time t ++ " till impact"))
         "Rename failed").1,
       ((renameStep cid name
           (METEOR_ICON ++ " · " ++ format_time t ++ " till impact") rOk
           ("Updated channel name to: " ++
             (METEOR_ICON ++ " · " ++ format_time t ++ " till impact"))
           "Rename failed").2.1 ++ (dayReminderStep sd t dOk).2.1) ++
         (hourReminderStep sh t hOk).2.1,
       ((renameStep cid name
           (METEOR_ICON ++ " · " ++ format_time t ++ " till impact") rOk
           ("Updated channel name to: " ++
             (METEOR_ICON ++ " · " ++ format_time t ++ " till impact"))
           "Rename failed").2.2 ++ (dayReminderStep sd t dOk).2.2) ++
         (hourReminderStep sh t hOk).2.2⟩ := by
  simp only [update_loop]
  rw [if_neg (by omega)]

theorem countRenames_append (l1 l2 : List Action) :
    countRenames (l1 ++ l2) = countRenames l1 + countRenames l2 := by
  simp [countRenames, List.filter_append]

theorem desired_name_active (t : Int) (ht : 0 < t) :
    desired_name t = METEOR_ICON ++ " · " ++ format_time t ++ " till impact" := by
  simp only [desired_name]
  rw [if_neg (by omega)]

/-! ## Claim theorems -/

/-- Claim C1: for every time delta, `format_time` clamps negative or zero
deltas to zero (rendering `"0m"`), and otherwise renders the days component
only when days > 0, the hours component exactly when hours > 0 or days > 0,
and a minutes component always, joined by single spaces in descending unit
order; in particular 10 days 4 hours 32 minutes gives `"10d 4h 32m"`,
45 minutes gives `"45m"`, and -5 minutes gives `"0m"`. -/
theorem format_time_claim (t : Int) :
    (t ≤ 0 → format_time t = "0m") ∧
    format_time t = format_time (if t < 0 then 0 else t) ∧
    (0 ≤ t →
      format_time t =
        (if 0 < t / 86400 then toString (t / 86400) ++ "d " else "") ++
        (if 0 < t % 86400 / 3600 ∨ 0 < t / 86400 then
          toString (t % 86400 / 3600) ++ "h " else "") ++
        (toString (t % 3600 / 60) ++ "m")) ∧
    format_time 880320 = "10d 4h 32m" ∧
    format_time 2700 = "45m" ∧
    format_time (-300) = "0m" := by
  refine ⟨?_, ?_, ?_, by decide, by decide, by decide⟩
  · intro ht
    have h0 : (if t < 0 then 0 else t) = (0 : Int) := by split <;> omega
    simp only [format_time, h0]
    decide
  · by_cases h : t < 0
    · rw [if_pos h]
      simp only [format_time]
      rw [if_pos h]
      norm_num
    · rw [if_neg h]
  · intro ht
    have hcl : (if t < 0 then 0 else t) = t := by split <;> omega
    simp only [format_time, hcl]
    rw [Int.emod_emod_of_dvd t (by norm_num : (3600 : Int) ∣ 86400)]
    by_cases hd : 0 < t / 86400
    · rw [if_pos hd, if_pos (Or.inr hd), if_pos hd, if_pos (Or.inr hd)]
      simp only [List.cons_append, List.nil_append]
      simp only [joinSpace]
      rw [show ("d " : String) = "d" ++ " " from rfl,
        show ("h " : String) = "h" ++ " " from rfl]
      simp only [String.append_assoc]
    · by_cases hh : 0 < t % 86400 / 3600
      · rw [if_neg hd, if_pos (Or.inl hh), if_neg hd, if_pos (Or.inl hh)]
        simp only [List.cons_append, List.nil_append]
        simp only [joinSpace]
        rw [show ("h " : String) = "h" ++ " " from rfl]
        simp only [String.empty_append, String.append_assoc]
      · rw [if_neg hd, if_neg (by tauto), if_neg hd, if_neg (by tauto)]
        simp only [List.cons_append, List.nil_append]
        simp only [joinSpace]
        simp only [String.empty_append]

/-- Witness for C1: the clamping conjunct applied at -5 minutes. -/
theorem format_time_claim_w : format_time (-300) = "0m" :=
  (format_time_claim (-300)).1 (by decide)

/-- Claim C8: once a tick observes remaining ≤ 0, the step leaves the state
untouched, fires no day or hour reminder, and emits at most the idempotent
imminent-name rename; this holds on every tick in the expired state. -/
theorem update_loop_expired_claim (s : BotState) (t : Int) (cn : Option String)
    (rOk dOk hOk : Bool) (ht : t ≤ 0) :
    (update_loop s t cn rOk dOk hOk).state = s ∧
    (∀ n : Int, Action.sendDay n ∉ (update_loop s t cn rOk dOk hOk).actions ∧
      Action.sendHour n ∉ (update_loop s t cn rOk dOk hOk).actions) ∧
    ((update_loop s t cn rOk dOk hOk).actions = [] ∨
      ∃ c, (update_loop s t cn rOk dOk hOk).actions =
        [Action.rename c FINISHED_NAME]) := by
  obtain ⟨cido, tto, sd, sh⟩ := s
  cases tto with
  | none =>
    rw [update_loop_no_target]
    exact ⟨rfl, fun n => ⟨by simp, by simp⟩, Or.inl rfl⟩
  | some tt =>
    cases cido with
    | none =>
      rw [update_loop_no_channel_id]
      exact ⟨rfl, fun n => ⟨by simp, by simp⟩, Or.inl rfl⟩
    | some cid =>
      cases cn with
      | none =>
        rw [update_loop_lookup_failed]
        exact ⟨rfl, fun n => ⟨by simp, by simp⟩, Or.inl rfl⟩
      | some name =>
        rw [update_loop_expired_eq cid tt sd sh t name rOk dOk hOk ht]
        refine ⟨rfl, ?_, ?_⟩
        · intro n
          exact ⟨renameStep_no_sendDay _ _ _ _ _ _ _,
            renameStep_no_sendHour _ _ _ _ _ _ _⟩
        · show (renameStep cid name FINISHED_NAME rOk
            "Set finished channel name." "Could not rename channel").2.1 = [] ∨ _
          rw [renameStep_acts]
          split
          · exact Or.inr ⟨cid, rfl⟩
          · exact Or.inl rfl

/-- Witness for C8 at a concrete expired tick. -/
theorem update_loop_expired_claim_w :
    (update_loop sampleFired (-300) (some "x") true true true).state =
      sampleFired :=
  (update_loop_expired_claim sampleFired (-300) (some "x") true true true
    (by decide)).1

/-- Claim C4: hour-threshold reminders are evaluated only when remaining
time is strictly under 48 hours; on any tick with remaining ≥ 48 hours no
hour reminder is emitted, whatever the rounded hour count is. -/
theorem update_loop_hour_guard_claim (s : BotState) (t : Int)
    (cn : Option String) (rOk dOk hOk : Bool) (ht : 2 * 86400 ≤ t) (n : Int) :
    Action.sendHour n ∉ (update_loop s t cn rOk dOk hOk).actions := by
  obtain ⟨cido, tto, sd, sh⟩ := s
  cases tto with
  | none => rw [update_loop_no_target]; simp
  | some tt =>
    cases cido with
    | none => rw [update_loop_no_channel_id]; simp
    | some cid =>
      cases cn with
      | none => rw [update_loop_lookup_failed]; simp
      | some name =>
        rw [update_loop_active_eq cid tt sd sh t name rOk dOk hOk (by omega)]
        intro hmem
        simp only [List.mem_append] at hmem
        rcases hmem with (hmem | hmem) | hmem
        · exact renameStep_no_sendHour _ _ _ _ _ _ n hmem
        · exact dayStep_no_sendHour sd t dOk n hmem
        · rw [hourStep_guard sh t hOk ht] at hmem
          simp at hmem

/-- Witness for C4 at a tick with 49 hours remaining. -/
theorem update_loop_hour_guard_claim_w :
    Action.sendHour 24 ∉
      (update_loop sampleFired 176400 (some "x") true true true).actions :=
  update_loop_hour_guard_claim sampleFired 176400 (some "x") true true true
    (by decide) 24

/-- Claim C2: a tick's resulting state and actions do not depend on the
send outcomes (the marker set update happens before the send and is not
rolled back on failure); every emitted reminder's threshold is in the
resulting fired-set; and a threshold already in a fired-set is never
emitted again and stays in the set, so delivery is at most once per
event configuration. -/
theorem update_loop_at_most_once (s : BotState) (t : Int) (cn : Option String)
    (rOk d1 h1 d2 h2 : Bool) :
    ((update_loop s t cn rOk d1 h1).state = (update_loop s t cn rOk d2 h2).state ∧
     (update_loop s t cn rOk d1 h1).actions = (update_loop s t cn rOk d2 h2).actions ∧
     (update_loop s t cn rOk d1 h1).channelName =
       (update_loop s t cn rOk d2 h2).channelName) ∧
    (∀ n : Int, Action.sendDay n ∈ (update_loop s t cn rOk d1 h1).actions →
      n ∈ (update_loop s t cn rOk d1 h1).state.sentDay) ∧
    (∀ n : Int, Action.sendHour n ∈ (update_loop s t cn rOk d1 h1).actions →
      n ∈ (update_loop s t cn rOk d1 h1).state.sentHour) ∧
    (∀ n : Int, n ∈ s.sentDay →
      Action.sendDay n ∉ (update_loop s t cn rOk d1 h1).actions ∧
      n ∈ (update_loop s t cn rOk d1 h1).state.sentDay) ∧
    (∀ n : Int, n ∈ s.sentHour →
      Action.sendHour n ∉ (update_loop s t cn rOk d1 h1).actions ∧
      n ∈ (update_loop s t cn rOk d1 h1).state.sentHour) := by
  obtain ⟨cido, tto, sd, sh⟩ := s
  cases tto with
  | none =>
    rw [update_loop_no_target, update_loop_no_target]
    exact ⟨⟨rfl, rfl, rfl⟩, fun n h => absurd h (by simp),
      fun n h => absurd h (by simp),
      fun n h => ⟨by simp, h⟩, fun n h => ⟨by simp, h⟩⟩
  | some tt =>
    cases cido with
    | none =>
      rw [update_loop_no_channel_id, update_loop_no_channel_id]
      exact ⟨⟨rfl, rfl, rfl⟩, fun n h => absurd h (by simp),
        fun n h => absurd h (by simp),
        fun n h => ⟨by simp, h⟩, fun n h => ⟨by simp, h⟩⟩
    | some cid =>
      cases cn with
      | none =>
        rw [update_loop_lookup_failed, update_loop_lookup_failed]
        exact ⟨⟨rfl, rfl, rfl⟩, fun n h => absurd h (by simp),
          fun n h => absurd h (by simp),
          fun n h => ⟨by simp, h⟩, fun n h => ⟨by simp, h⟩⟩
      | some name =>
        by_cases ht : t ≤ 0
        · rw [update_loop_expired_eq cid tt sd sh t name rOk d1 h1 ht,
            update_loop_expired_eq cid tt sd sh t name rOk d2 h2 ht]
          refine ⟨⟨rfl, rfl, rfl⟩, ?_, ?_, ?_, ?_⟩
          · intro n h
            exact absurd h (renameStep_no_sendDay _ _ _ _ _ _ _)
          · intro n h
            exact absurd h (renameStep_no_sendHour _ _ _ _ _ _ _)
          · intro n h
            exact ⟨renameStep_no_sendDay _ _ _ _ _ _ _, h⟩
          · intro n h
            exact ⟨renameStep_no_sendHour _ _ _ _ _ _ _, h⟩
        · rw [update_loop_active_eq cid tt sd sh t name rOk d1 h1 (by omega),
            update_loop_active_eq cid tt sd sh t name rOk d2 h2 (by omega)]
          refine ⟨⟨?_, ?_, rfl⟩, ?_, ?_, ?_, ?_⟩
          · show BotState.mk _ _ (dayReminderStep sd t d1).1
              (hourReminderStep sh t h1).1 = BotState.mk _ _
              (dayReminderStep sd t d2).1 (hourReminderStep sh t h2).1
            rw [(dayStep_indep sd t d1 d2).1, (hourStep_indep sh t h1 h2).1]
          · show ((renameStep _ _ _ _ _ _).2.1 ++ (dayReminderStep sd t d1).2.1) ++
              (hourReminderStep sh t h1).2.1 = ((renameStep _ _ _ _ _ _).2.1 ++
              (dayReminderStep sd t d2).2.1) ++ (hourReminderStep sh t h2).2.1
            rw [(dayStep_indep sd t d1 d2).2, (hourStep_indep sh t h1 h2).2]
          · intro n hmem
            simp only [List.mem_append] at hmem
            rcases hmem with (hmem | hmem) | hmem
            · exact absurd hmem (renameStep_no_sendDay _ _ _ _ _ _ _)
            · exact dayStep_marker sd t d1 n hmem
            · exact absurd hmem (hourStep_no_sendDay sh t h1 n)
          · intro n hmem
            simp only [List.mem_append] at hmem
            rcases hmem with (hmem | hmem) | hmem
            · exact absurd hmem (renameStep_no_sendHour _ _ _ _ _ _ _)
            · exact absurd hmem (dayStep_no_sendHour sd t d1 n)
            · exact hourStep_marker sh t h1 n hmem
          · intro n hn
            constructor
            · intro hmem
              simp only [List.mem_append] at hmem
              rcases hmem with (hmem | hmem) | hmem
              · exact renameStep_no_sendDay _ _ _ _ _ _ _ hmem
              · exact dayStep_blocked sd t d1 n hn hmem
              · exact hourStep_no_sendDay sh t h1 n hmem
            · exact dayStep_superset sd t d1 hn
          · intro n hn
            constructor
            · intro hmem
              simp only [List.mem_append] at hmem
              rcases hmem with (hmem | hmem) | hmem
              · exact renameStep_no_sendHour _ _ _ _ _ _ _ hmem
              · exact dayStep_no_sendHour sd t d1 n hmem
              · exact hourStep_blocked sh t h1 n hn hmem
            · exact hourStep_superset sh t h1 hn

/-- Witness for C2: a threshold already in the fired-set is not re-fired. -/
theorem update_loop_at_most_once_w :
    Action.sendDay 7 ∉
      (update_loop sampleFired 87300 (some "x") true true true).actions ∧
    7 ∈ (update_loop sampleFired 87300 (some "x") true true true).state.sentDay :=
  (update_loop_at_most_once sampleFired 87300 (some "x") true true true
    true true).2.2.2.1 7 (by decide)

/-- Claim C9: with a configured event and a resolving channel, the day
reminder labelled `n` fires exactly on a tick whose remaining time `t`
satisfies `86400 * n ≤ t < 86400 * (n + 1)` with `n` in the configured day
set and not yet fired — so the `"n days remain"` broadcast can go out up to
almost 24 hours before remaining time equals exactly `n` days, as the
concrete tick at 8 days minus one minute firing the 7-day reminder shows. -/
theorem day_reminder_window (cid : Nat) (tt : DateTimeUTC) (sd sh : Finset Int)
    (t : Int) (name : String) (rOk dOk hOk : Bool) (n : Int) :
    (Action.sendDay n ∈
        (update_loop ⟨some cid, some tt, sd, sh⟩ t (some name)
          rOk dOk hOk).actions ↔
      n ∈ REMINDER_DAYS ∧ n ∉ sd ∧ 86400 * n ≤ t ∧ t < 86400 * (n + 1)) ∧
    Action.sendDay 7 ∈
      (update_loop ⟨some 1, some sampleDT, ∅, ∅⟩ (8 * 86400 - 60)
        (some "x") true true true).actions := by
  constructor
  · by_cases ht : t ≤ 0
    · rw [update_loop_expired_eq cid tt sd sh t name rOk dOk hOk ht]
      constructor
      · intro hmem
        exact absurd hmem (renameStep_no_sendDay _ _ _ _ _ _ _)
      · rintro ⟨h1, -, h3, -⟩
        have := daysSet_pos h1
        omega
    · rw [update_loop_active_eq cid tt sd sh t name rOk dOk hOk (by omega)]
      constructor
      · intro hmem
        simp only [List.mem_append] at hmem
        rcases hmem with (hmem | hmem) | hmem
        · exact absurd hmem (renameStep_no_sendDay _ _ _ _ _ _ _)
        · rcases (dayStep_mem sd t dOk n).1 hmem with ⟨h1, h2, h3⟩
          exact ⟨h2, h3, by omega, by omega⟩
        · exact absurd hmem (hourStep_no_sendDay sh t hOk n)
      · rintro ⟨h1, h2, h3, h4⟩
        have hq : t / 86400 = n := by omega
        have hmem := (dayStep_mem sd t dOk n).2 ⟨hq, h1, h2⟩
        simp only [List.mem_append]
        exact Or.inl (Or.inr hmem)
  · decide

/-- Witness for C9 at a tick just under 8 days out. -/
theorem day_reminder_window_w :
    Action.sendDay 7 ∈
      (update_loop ⟨some 2, some sampleDT, ∅, ∅⟩ 691140 (some "y")
        true true true).actions :=
  (day_reminder_window 2 sampleDT ∅ ∅ 691140 "y" true true true 7).1.mpr
    (by decide)

/-- Claim C7: a rename is issued only when the current channel name differs
from the computed desired name (`desired_name`), and running the
reconciliation step twice with identical remaining time — the second run
starting from the first run's state and channel name, with the first
rename applied — issues at most one rename in total and no duplicate
reminder (the second run emits no actions at all). -/
theorem update_loop_idempotent (s : BotState) (t : Int) (name : String)
    (dOk hOk dOk2 hOk2 : Bool) :
    (∀ (c : Nat) (nm : String),
      Action.rename c nm ∈ (update_loop s t (some name) true dOk hOk).actions →
        nm = desired_name t ∧ name ≠ desired_name t) ∧
    countRenames ((update_loop s t (some name) true dOk hOk).actions ++
      (update_loop (update_loop s t (some name) true dOk hOk).state t
        (update_loop s t (some name) true dOk hOk).channelName
        true dOk2 hOk2).actions) ≤ 1 ∧
    (update_loop (update_loop s t (some name) true dOk hOk).state t
      (update_loop s t (some name) true dOk hOk).channelName
      true dOk2 hOk2).actions = [] := by
  obtain ⟨cido, tto, sd, sh⟩ := s
  cases tto with
  | none =>
    simp only [update_loop_no_target]
    exact ⟨fun c nm h => absurd h (by simp), by simp [countRenames], trivial⟩
  | some tt =>
    cases cido with
    | none =>
      simp only [update_loop_no_channel_id]
      exact ⟨fun c nm h => absurd h (by simp), by simp [countRenames], trivial⟩
    | some cid =>
      by_cases ht : t ≤ 0
      · simp only [update_loop_expired_eq cid tt sd sh t name true dOk hOk ht,
          renameStep_fst_true,
          update_loop_expired_eq cid tt sd sh t FINISHED_NAME true dOk2 hOk2 ht,
          renameStep_self]
        refine ⟨?_, ?_, trivial⟩
        · intro c nm hmem
          have h3 := renameStep_mem_acts cid name FINISHED_NAME true
            "Set finished channel name." "Could not rename channel" c nm hmem
          have hd : desired_name t = FINISHED_NAME := by
            simp only [desired_name]
            rw [if_pos ht]
          rw [hd]
          exact ⟨h3.2.1, h3.2.2⟩
        · rw [List.append_nil]
          exact renameStep_count cid name FINISHED_NAME true
            "Set finished channel name." "Could not rename channel"
      · have ht' : 0 < t := by omega
        simp only [update_loop_active_eq cid tt sd sh t name true dOk hOk ht',
          renameStep_fst_true,
          update_loop_active_eq cid tt (dayReminderStep sd t dOk).1
            (hourReminderStep sh t hOk).1 t
            (METEOR_ICON ++ " · " ++ format_time t ++ " till impact")
            true dOk2 hOk2 ht',
          renameStep_self, dayStep_idem, hourStep_idem,
          List.append_nil, List.nil_append]
        refine ⟨?_, ?_, trivial⟩
        · intro c nm hmem
          simp only [List.mem_append] at hmem
          rcases hmem with (hmem | hmem) | hmem
          · have h3 := renameStep_mem_acts cid name
              (METEOR_ICON ++ " · " ++ format_time t ++ " till impact") true
              ("Updated channel name to: " ++
                (METEOR_ICON ++ " · " ++ format_time t ++ " till impact"))
              "Rename failed" c nm hmem
            rw [desired_name_active t ht']
            exact ⟨h3.2.1, h3.2.2⟩
          · exact absurd hmem (dayStep_no_rename sd t dOk c nm)
          · exact absurd hmem (hourStep_no_rename sh t hOk c nm)
        · rw [countRenames_append, countRenames_append,
            dayStep_count, hourStep_count]
          have hc := renameStep_count cid name
            (METEOR_ICON ++ " · " ++ format_time t ++ " till impact") true
            ("Updated channel name to: " ++
              (METEOR_ICON ++ " · " ++ format_time t ++ " till impact"))
            "Rename failed"
          omega

/-- Witness for C7: the rename issued at a concrete active tick targets the
desired name, and the prior name differed from it. -/
theorem update_loop_idempotent_w :
    desired_name 60 = desired_name 60 ∧ "x" ≠ desired_name 60 :=
  (update_loop_idempotent ⟨some 1, some sampleDT, ∅, ∅⟩ 60 "x" true true
    true true).1 1 (desired_name 60) (by decide)

/-- Claim C3: the hour threshold of a tick is `int(round(s / 3600))`,
rounding to the nearest integer rather than flooring, so an hour reminder
can fire slightly before the exact hour boundary (24h15m remaining fires
the 24-hour reminder) or slightly after it (23h45m remaining also fires
the 24-hour reminder, where flooring would give 23). -/
theorem hour_threshold_rounding :
    (∀ h s : Int, 3600 * h - 1800 < s → s < 3600 * h + 1800 →
      pyRound3600 s = h) ∧
    (pyRound3600 85500 = 24 ∧ (85500 : Int) / 3600 = 23) ∧
    Action.sendHour 24 ∈
      (update_loop ⟨some 1, some sampleDT, ∅, ∅⟩ 87300 (some "x")
        true true true).actions ∧
    Action.sendHour 24 ∈
      (update_loop ⟨some 1, some sampleDT, ∅, ∅⟩ 85500 (some "x")
        true true true).actions := by
  refine ⟨?_, by decide, by decide, by decide⟩
  intro h s h1 h2
  simp only [pyRound3600]
  split_ifs <;> omega

/-- Witness for C3: nearest rounding at 85000 seconds remaining. -/
theorem hour_threshold_rounding_w : pyRound3600 85000 = 24 :=
  hour_threshold_rounding.1 24 85000 (by decide) (by decide)

/-- Claim C6: a configuration command with an unparseable date/time reports
the invalid-input usage hint and performs no state mutation: no channel
delete or create action is emitted and the whole state is returned
unchanged. -/
theorem create_meteor_invalid_input (s : BotState) (date time chname : String)
    (oldRes : Bool) (nid : Nat) (hp : parse_datetime_utc date time = none) :
    create_meteor s date time chname oldRes nid =
      (s, [], CreateResult.invalidInput) := by
  simp only [create_meteor, hp]

/-- Witness for C6 at the impossible calendar date 2025-13-40. -/
theorem create_meteor_invalid_input_w :
    create_meteor sampleFired "2025-13-40" "12:00" "meteor-impact" true 9 =
      (sampleFired, [], CreateResult.invalidInput) :=
  create_meteor_invalid_input sampleFired "2025-13-40" "12:00" "meteor-impact"
    true 9 (by decide)

/-- Claim C5: every successful configuration action and every
deconfiguration action (one that does not report no-active-event) resets
both fired-marker sets to empty, so markers never carry over between
distinct events. -/
theorem fired_sets_reset (s : BotState) (date time chname : String)
    (oldRes : Bool) (nid : Nat) (lookup : Nat → Option String) :
    (∀ dt : DateTimeUTC, parse_datetime_utc date time = some dt →
      (create_meteor s date time chname oldRes nid).1.sentDay = ∅ ∧
      (create_meteor s date time chname oldRes nid).1.sentHour = ∅ ∧
      (create_meteor s date time chname oldRes nid).2.2 =
        CreateResult.created nid dt) ∧
    (¬(s.countdownChannelId = none ∧ s.targetTime = none) →
      (delete_meteor s lookup).1.sentDay = ∅ ∧
      (delete_meteor s lookup).1.sentHour = ∅ ∧
      (delete_meteor s lookup).1.targetTime = none ∧
      (delete_meteor s lookup).1.countdownChannelId = none) := by
  constructor
  · intro dt hp
    simp [create_meteor, hp]
  · intro hne
    simp only [delete_meteor]
    rw [if_neg hne]
    exact ⟨rfl, rfl, rfl, rfl⟩

/-- Witness for C5: a state with nonempty fired-sets, reconfigured and
deconfigured. -/
theorem fired_sets_reset_w :
    ((create_meteor sampleFired "2026-01-20" "16:47" "meteor-impact"
        true 9).1.sentDay = ∅ ∧
     (create_meteor sampleFired "2026-01-20" "16:47" "meteor-impact"
        true 9).1.sentHour = ∅ ∧
     (create_meteor sampleFired "2026-01-20" "16:47" "meteor-impact"
        true 9).2.2 = CreateResult.created 9 sampleDT) ∧
    ((delete_meteor sampleFired sampleLookup).1.sentDay = ∅ ∧
     (delete_meteor sampleFired sampleLookup).1.sentHour = ∅ ∧
     (delete_meteor sampleFired sampleLookup).1.targetTime = none ∧
     (delete_meteor sampleFired sampleLookup).1.countdownChannelId = none) :=
  ⟨(fired_sets_reset sampleFired "2026-01-20" "16:47" "meteor-impact" true 9
      sampleLookup).1 sampleDT (by decide),
   (fired_sets_reset sampleFired "2026-01-20" "16:47" "meteor-impact" true 9
      sampleLookup).2 (by decide)⟩

theorem unpackThree_isSome_iff (ps : List (List Char)) :
    (unpackThree (ps.map pyIntL)).isSome = true ↔
      ps.length = 3 ∧ ∀ f ∈ ps, (pyIntL f).isSome = true := by
  rcases ps with _ | ⟨a, _ | ⟨b, _ | ⟨c, _ | ⟨e, tl⟩⟩⟩⟩
  · simp [unpackThree]
  · cases ha : pyIntL a <;> simp [unpackThree, ha]
  · cases ha : pyIntL a <;> cases hb : pyIntL b <;>
      simp [unpackThree, ha, hb]
  · cases ha : pyIntL a <;> cases hb : pyIntL b <;> cases hc : pyIntL c <;>
      simp [unpackThree, ha, hb, hc]
  · cases ha : pyIntL a <;> cases hb : pyIntL b <;> cases hc : pyIntL c <;>
      simp [unpackThree, ha, hb, hc]

theorem unpackTwo_isSome_iff (ps : List (List Char)) :
    (unpackTwo (ps.map pyIntL)).isSome = true ↔
      ps.length = 2 ∧ ∀ f ∈ ps, (pyIntL f).isSome = true := by
  rcases ps with _ | ⟨a, _ | ⟨b, _ | ⟨e, tl⟩⟩⟩
  · simp [unpackTwo]
  · cases ha : pyIntL a <;> simp [unpackTwo, ha]
  · cases ha : pyIntL a <;> cases hb : pyIntL b <;>
      simp [unpackTwo, ha, hb]
  · cases ha : pyIntL a <;> cases hb : pyIntL b <;>
      simp [unpackTwo, ha, hb]

/-- Counterexample to C10 as stated: the date `"2025-13-40"` splits on
`'-'` into three integer fields and `"12:00"` splits on `':'` into two
integer fields, yet the parser raises (the `datetime` constructor rejects
month 13), so structural well-formedness is not sufficient for
acceptance. -/
theorem parse_structure_not_sufficient :
    dateThreeIntFields "2025-13-40" = true ∧
    timeTwoIntFields "12:00" = true ∧
    parse_datetime_utc "2025-13-40" "12:00" = none :=
  ⟨by decide, by decide, by decide⟩

/-- Claim C10 (amended): the parser accepts exactly a date string splitting
on `'-'` into three integer fields together with a time string splitting on
`':'` into two integer fields, provided the field values also form a valid
calendar date/time for the `datetime` constructor; in particular a time
with seconds such as `"23:59:30"` is rejected, and every successfully
parsed timestamp is timezone-aware UTC with zero seconds and zero
sub-second component. -/
theorem parse_accept_characterization :
    (∀ d t : String, (parseFields d t).isSome = true ↔
      dateThreeIntFields d = true ∧ timeTwoIntFields t = true) ∧
    (∀ d t : String, (parse_datetime_utc d t).isSome = true ↔
      ∃ y mo da h mi : Int, parseFields d t = some (y, mo, da, h, mi) ∧
        (mkDatetime y mo da h mi).isSome = true) ∧
    parse_datetime_utc "2025-12-31" "23:59:30" = none ∧
    (∀ d t : String, ∀ dtv : DateTimeUTC, parse_datetime_utc d t = some dtv →
      dtv.second = 0 ∧ dtv.microsecond = 0 ∧ dtv.tzIsUTC = true) := by
  refine ⟨?_, ?_, by decide, ?_⟩
  · intro d t
    simp only [dateThreeIntFields, timeTwoIntFields, Bool.and_eq_true,
      beq_iff_eq, List.all_eq_true]
    rw [← unpackThree_isSome_iff, ← unpackTwo_isSome_iff]
    cases h3 : unpackThree ((splitOnChar '-' d.toList).map pyIntL) with
    | none =>
      unfold parseFields
      rw [h3]
      simp
    | some v =>
      obtain ⟨y, mo, da⟩ := v
      cases h2 : unpackTwo ((splitOnChar ':' t.toList).map pyIntL) with
      | none =>
        unfold parseFields
        rw [h3, h2]
        simp
      | some w =>
        obtain ⟨h, mi⟩ := w
        unfold parseFields
        rw [h3, h2]
        simp
  · intro d t
    cases hf : parseFields d t with
    | none => simp [parse_datetime_utc, hf]
    | some v =>
      obtain ⟨y, mo, da, h, mi⟩ := v
      simp only [parse_datetime_utc, hf]
      constructor
      · intro hs
        exact ⟨y, mo, da, h, mi, rfl, hs⟩
      · rintro ⟨y2, mo2, da2, h2, mi2, heq, hs⟩
        injection heq with heq2
        obtain ⟨rfl, rfl, rfl, rfl, rfl⟩ :
            y = y2 ∧ mo = mo2 ∧ da = da2 ∧ h = h2 ∧ mi = mi2 := by
          simpa using heq2
        exact hs
  · intro d t dtv hp
    cases hf : parseFields d t with
    | none =>
      simp only [parse_datetime_utc, hf] at hp
      exact Option.noConfusion hp
    | some v =>
      obtain ⟨y, mo, da, h, mi⟩ := v
      simp only [parse_datetime_utc, hf] at hp
      simp only [mkDatetime] at hp
      split_ifs at hp
      injection hp with hp2
      subst hp2
      exact ⟨rfl, rfl, rfl⟩

/-- Witness for C10's amended theorem: a successfully parsed timestamp has
zero seconds, zero microseconds, and is UTC-aware. -/
theorem parse_accept_characterization_w :
    sampleDT.second = 0 ∧ sampleDT.microsecond = 0 ∧ sampleDT.tzIsUTC = true :=
  parse_accept_characterization.2.2.2 "2026-01-20" "16:47" sampleDT (by decide)

end EcoMeteorBot
